import Mathlib

set_option maxRecDepth 100000

/-!
Verification of the Medicamenta.me Python SDK (`sdk/python/medicamenta/__init__.py`)
against its natural-language specification.

The SDK is a thin client: resource façades build one HTTP request each, a single
transport method (`MedicamentaClient._request`) performs the call and normalizes
success/error outcomes, and a standalone function `verify_webhook_signature`
checks an HMAC-SHA256 webhook signature.  This file shallowly embeds those
pieces: the signature verifier is embedded together with a full executable
SHA-256 / HMAC-SHA256 over `Nat` bytes (so concrete signatures evaluate in the
kernel), the request builders are embedded as pure functions from an operation
description to the `(method, path, params, json)` quadruple each façade passes
to `_request`, and `_request` itself is embedded as a function from the HTTP
outcome (a transport failure or a response with a status and a body) to the
call outcome (returned JSON, raised `MedicamentaError`, or an exception that
escapes the handler).
-/

/-! ## SHA-256 over byte lists

A faithful executable SHA-256 (FIPS 180-4) over `List Nat` where each entry is
a byte value.  32-bit words are `Nat` reduced modulo `2^32`; this models the
`hashlib.sha256` the source delegates to. -/

/-- 2^32, the word modulus for SHA-256 arithmetic. -/
def w32 : Nat := 4294967296

/-- Right rotation of a 32-bit word. -/
def rotr32 (n x : Nat) : Nat := ((x >>> n) ||| (x <<< (32 - n))) % w32

/-- SHA-256 message-schedule sigma-0. -/
def smallSigma0 (x : Nat) : Nat := (rotr32 7 x) ^^^ (rotr32 18 x) ^^^ (x >>> 3)

/-- SHA-256 message-schedule sigma-1. -/
def smallSigma1 (x : Nat) : Nat := (rotr32 17 x) ^^^ (rotr32 19 x) ^^^ (x >>> 10)

/-- SHA-256 compression Sigma-0. -/
def bigSigma0 (x : Nat) : Nat := (rotr32 2 x) ^^^ (rotr32 13 x) ^^^ (rotr32 22 x)

/-- SHA-256 compression Sigma-1. -/
def bigSigma1 (x : Nat) : Nat := (rotr32 6 x) ^^^ (rotr32 11 x) ^^^ (rotr32 25 x)

/-- The 64 SHA-256 round constants (FIPS 180-4 section 4.2.2, here written in
decimal). -/
def shaK : List Nat :=
  [1116352408, 1899447441, 3049323471, 3921009573, 961987163,
   1508970993, 2453635748, 2870763221, 3624381080, 310598401,
   607225278, 1426881987, 1925078388, 2162078206, 2614888103,
   3248222580, 3835390401, 4022224774, 264347078, 604807628,
   770255983, 1249150122, 1555081692, 1996064986, 2554220882,
   2821834349, 2952996808, 3210313671, 3336571891, 3584528711,
   113926993, 338241895, 666307205, 773529912, 1294757372,
   1396182291, 1695183700, 1986661051, 2177026350, 2456956037,
   2730485921, 2820302411, 3259730800, 3345764771, 3516065817,
   3600352804, 4094571909, 275423344, 430227734, 506948616,
   659060556, 883997877, 958139571, 1322822218, 1537002063,
   1747873779, 1955562222, 2024104815, 2227730452, 2361852424,
   2428436474, 2756734187, 3204031479, 3329325298]

/-- The eight 32-bit working variables of the SHA-256 compression function. -/
structure ShaState where
  a : Nat
  b : Nat
  c : Nat
  d : Nat
  e : Nat
  f : Nat
  g : Nat
  h : Nat

/-- The SHA-256 initial hash value (FIPS 180-4 section 5.3.3, in decimal). -/
def shaInit : ShaState :=
  ⟨1779033703, 3144134277, 1013904242, 2773480762, 1359893119, 2600822924, 528734635, 1541459225⟩

/-- Extend a message schedule by one word (W_t from W_{t-2}, W_{t-7}, W_{t-15}, W_{t-16}). -/
def scheduleStep (ws : List Nat) : List Nat :=
  let i := ws.length
  let w := (smallSigma1 (ws.getD (i - 2) 0) + ws.getD (i - 7) 0 +
            smallSigma0 (ws.getD (i - 15) 0) + ws.getD (i - 16) 0) % w32
  ws ++ [w]

/-- Iterate `scheduleStep` to build the full 64-word schedule from the 16 block words. -/
def scheduleAux : Nat → List Nat → List Nat
  | 0, ws => ws
  | n + 1, ws => scheduleAux n (scheduleStep ws)

/-- One SHA-256 compression round with round constant `k` and schedule word `w`. -/
def compressRound (s : ShaState) (k w : Nat) : ShaState :=
  let ch := (s.e &&& s.f) ^^^ ((s.e ^^^ 0xffffffff) &&& s.g)
  let maj := (s.a &&& s.b) ^^^ (s.a &&& s.c) ^^^ (s.b &&& s.c)
  let t1 := (s.h + bigSigma1 s.e + ch + k + w) % w32
  let t2 := (bigSigma0 s.a + maj) % w32
  ⟨(t1 + t2) % w32, s.a, s.b, s.c, (s.d + t1) % w32, s.e, s.f, s.g⟩

/-- Run the 64 compression rounds over the paired constants and schedule words. -/
def compressRounds : List Nat → List Nat → ShaState → ShaState
  | k :: ks, w :: ws, s => compressRounds ks ws (compressRound s k w)
  | _, _, s => s

/-- Read a big-endian 32-bit word from four consecutive bytes. -/
def word32At (bs : List Nat) (i : Nat) : Nat :=
  bs.getD i 0 * 16777216 + bs.getD (i + 1) 0 * 65536 + bs.getD (i + 2) 0 * 256 + bs.getD (i + 3) 0

/-- Parse a 64-byte block into its 16 big-endian words. -/
def blockWords (block : List Nat) : List Nat :=
  (List.range 16).map (fun j => word32At block (4 * j))

/-- Compress one 64-byte block into the running hash state. -/
def compressBlock (s : ShaState) (block : List Nat) : ShaState :=
  let ws := scheduleAux 48 (blockWords block)
  let t := compressRounds shaK ws s
  ⟨(s.a + t.a) % w32, (s.b + t.b) % w32, (s.c + t.c) % w32, (s.d + t.d) % w32,
   (s.e + t.e) % w32, (s.f + t.f) % w32, (s.g + t.g) % w32, (s.h + t.h) % w32⟩

/-- Fold the compression function over `n` consecutive 64-byte blocks. -/
def shaBlocksAux : Nat → ShaState → List Nat → ShaState
  | 0, s, _ => s
  | n + 1, s, msg => shaBlocksAux n (compressBlock s (msg.take 64)) (msg.drop 64)

/-- Big-endian rendering of `x` as `n` bytes. -/
def beBytes (n x : Nat) : List Nat :=
  (List.range n).map (fun i => (x >>> (8 * (n - 1 - i))) &&& 0xff)

/-- SHA-256 padding: append `0x80`, zero bytes up to 56 mod 64, and the 8-byte
big-endian bit length. -/
def sha256Pad (msg : List Nat) : List Nat :=
  let L := msg.length
  msg ++ [0x80] ++ List.replicate ((119 - L % 64) % 64) 0 ++ beBytes 8 (L * 8)

/-- The 32-byte SHA-256 digest of a byte list. -/
def sha256Bytes (msg : List Nat) : List Nat :=
  let padded := sha256Pad msg
  let s := shaBlocksAux (padded.length / 64) shaInit padded
  beBytes 4 s.a ++ beBytes 4 s.b ++ beBytes 4 s.c ++ beBytes 4 s.d ++
  beBytes 4 s.e ++ beBytes 4 s.f ++ beBytes 4 s.g ++ beBytes 4 s.h

/-- The lowercase hex character for a nibble (0-15). -/
def hexDigitChar (n : Nat) : Char :=
  if n < 10 then Char.ofNat (48 + n) else Char.ofNat (87 + n)

/-- The two lowercase hex characters of a byte. -/
def byteToHexChars (b : Nat) : List Char := [hexDigitChar (b / 16 % 16), hexDigitChar (b % 16)]

/-- Lowercase hex rendering of a byte list, as `hexdigest()` produces. -/
def bytesToHex (bs : List Nat) : String := ⟨bs.flatMap byteToHexChars⟩

/-- UTF-8 encoding of one character, as Python `str.encode()` produces. -/
def utf8Bytes (c : Char) : List Nat :=
  let n := c.toNat
  if n < 128 then [n]
  else if n < 2048 then [192 + n / 64, 128 + n % 64]
  else if n < 65536 then [224 + n / 4096, 128 + n / 64 % 64, 128 + n % 64]
  else [240 + n / 262144, 128 + n / 4096 % 64, 128 + n / 64 % 64, 128 + n % 64]

/-- UTF-8 bytes of a string (`str.encode()`). -/
def strBytes (s : String) : List Nat := s.data.flatMap utf8Bytes

/-- HMAC-SHA256 (RFC 2104) over byte lists: keys longer than the 64-byte block
are first hashed, the key is zero-padded to 64 bytes, and the digest is
`SHA256(opad ++ SHA256(ipad ++ msg))`. -/
def hmacSha256 (key msg : List Nat) : List Nat :=
  let k0 := if key.length > 64 then sha256Bytes key else key
  let kPad := k0 ++ List.replicate (64 - k0.length) 0
  let ipad := kPad.map (fun b => b ^^^ 0x36)
  let opad := kPad.map (fun b => b ^^^ 0x5c)
  sha256Bytes (opad ++ sha256Bytes (ipad ++ msg))

/-- The lowercase hex HMAC-SHA256 of a message string under a secret string,
modelling `hmac.new(secret.encode(), message.encode(), hashlib.sha256).hexdigest()`. -/
def hmacSha256Hex (secret message : String) : String :=
  bytesToHex (hmacSha256 (strBytes secret) (strBytes message))

/-! ## The webhook signature verifier

Embeds `verify_webhook_signature` (source lines 392-419).  The source splits
the signature on `','`, takes `split('=')[1]` of the first two parts as the
timestamp and the received digest (any `IndexError` from a missing part or a
missing `'='` is caught and yields `False`), recomputes the HMAC of
`timestamp + '.' + payload` and compares with `hmac.compare_digest`. -/

/-- Python `str.split(sep)` for a one-character separator, on character
lists: splitting the empty string gives `[[]]`, and each separator occurrence
starts a new group (`'a,,b'` gives three groups).  Both separators the source
uses (`','` and `'='`) are single characters.  Structural recursion keeps this
kernel-computable. -/
def splitOnChar (sep : Char) : List Char → List (List Char)
  | [] => [[]]
  | c :: rest =>
    if c == sep then [] :: splitOnChar sep rest
    else
      match splitOnChar sep rest with
      | g :: gs => (c :: g) :: gs
      | [] => [[c]]

/-- Python `s.split(sep)` for a one-character separator, on strings. -/
def pySplit (sep : Char) (s : String) : List String :=
  (splitOnChar sep s.data).map (fun cs => ⟨cs⟩)

/-- Python `part.split('=')[1]`: the field after the first `'='`, or `none`
when there is no `'='` (the source's `IndexError`, caught to give `False`). -/
def splitValue (part : String) : Option String :=
  match pySplit '=' part with
  | _ :: v :: _ => some v
  | _ => none

/-- The parsing phase of `verify_webhook_signature`: split on `','`; the
timestamp is `parts[0].split('=')[1]` and the received digest is
`parts[1].split('=')[1]`.  `none` models the caught `IndexError` (fewer than
two parts, or a part without `'='`). -/
def parseSignature (signature : String) : Option (String × String) :=
  match pySplit ',' signature with
  | p0 :: p1 :: _ =>
    match splitValue p0, splitValue p1 with
    | some t, some d => some (t, d)
    | _, _ => none
  | _ => none

/-- Semantic model of `hmac.compare_digest` on hex-digest strings: equality.
(The source uses it only for timing resistance, which has no observable
functional content; the expected digest is always ASCII hex, and the model
treats the received string as comparable, i.e. ASCII.) -/
def compare_digest (a b : String) : Bool := a == b

/-- Embedding of `verify_webhook_signature(payload, signature, secret)`
(source lines 392-419). -/
def verify_webhook_signature (payload signature secret : String) : Bool :=
  match parseSignature signature with
  | some (t, d) => compare_digest d (hmacSha256Hex secret (t ++ "." ++ payload))
  | none => false

/-! ## JSON values

The SDK exchanges opaque JSON-like structures.  Numbers are modelled as `Nat`
(every number a claim touches is a non-negative integer, and Python renders
those identically). -/

/-- A JSON value: `null`, booleans, non-negative integers, strings, arrays and
objects (objects keep insertion order, as Python dicts do). -/
inductive JsonVal where
  | null : JsonVal
  | bool : Bool → JsonVal
  | nat : Nat → JsonVal
  | str : String → JsonVal
  | arr : List JsonVal → JsonVal
  | obj : List (String × JsonVal) → JsonVal

/-! Python `repr` of a JSON value (which is what `str` gives for containers):
strings single-quoted, `None`/`True`/`False` capitalised, lists and dicts with
comma-space separators.  String escaping is not modelled; every string a claim
touches is free of quotes and backslashes. -/

mutual

/-- Python `repr` of a JSON value. -/
def pyRepr : JsonVal → String
  | .null => "None"
  | .bool true => "True"
  | .bool false => "False"
  | .nat n => toString n
  | .str s => "'" ++ s ++ "'"
  | .arr xs => "[" ++ pyReprItems xs ++ "]"
  | .obj kvs => "\x7b" ++ pyReprFields kvs ++ "\x7d"

/-- Python `repr` of the comma-separated items of a list. -/
def pyReprItems : List JsonVal → String
  | [] => ""
  | [x] => pyRepr x
  | x :: y :: xs => pyRepr x ++ ", " ++ pyReprItems (y :: xs)

/-- Python `repr` of the comma-separated key-value pairs of a dict. -/
def pyReprFields : List (String × JsonVal) → String
  | [] => ""
  | [(k, v)] => "'" ++ k ++ "': " ++ pyRepr v
  | (k, v) :: p :: ps => "'" ++ k ++ "': " ++ pyRepr v ++ ", " ++ pyReprFields (p :: ps)

end

/-- Python `str` of a JSON value: the string itself for strings, `repr`
otherwise (matching f-string interpolation of the extracted error message). -/
def pyStr : JsonVal → String
  | .str s => s
  | v => pyRepr v

/-! ## Client construction

Embeds `MedicamentaClient.__init__` (source lines 30-68).  The credential
check is Python truthiness (`if not api_key and not access_token`), so `None`
and the empty string are both "absent"; on success the session headers carry
`X-API-Key` when `api_key` is truthy, else `Authorization: Bearer <token>`,
plus `Content-Type: application/json`.  The spec names this construction
failure `ConfigurationError`; the source raises `ValueError`. -/

/-- Python truthiness of an `Optional[str]`: `False` for `None` and for `""`. -/
def pyTruthy : Option String → Bool
  | none => false
  | some s => !s.isEmpty

/-- Python `base_url.rstrip('/')`: drop every trailing `'/'`. -/
def rstripSlashes (s : String) : String :=
  ⟨(s.data.reverse.dropWhile (fun c => c == '/')).reverse⟩

/-- The state a successful `MedicamentaClient.__init__` leaves behind: the
stored credentials, the normalised base URL, the timeout, and the session
headers (set once at construction). -/
structure ClientConfig where
  api_key : Option String
  access_token : Option String
  base_url : String
  timeout : Nat
  headers : List (String × String)
deriving DecidableEq

/-- Embedding of `MedicamentaClient.__init__`: `.error` models the raised
`ValueError` (the spec's `ConfigurationError`), `.ok` the constructed client. -/
def clientInit (api_key access_token : Option String) (base_url : String) (timeout : Nat) :
    Except String ClientConfig :=
  if !pyTruthy api_key && !pyTruthy access_token then
    .error "Either api_key or access_token must be provided"
  else
    let authHeaders :=
      if pyTruthy api_key then [("X-API-Key", api_key.getD "")]
      else if pyTruthy access_token then
        [("Authorization", "Bearer " ++ access_token.getD "")]
      else []
    .ok { api_key := api_key, access_token := access_token,
          base_url := rstripSlashes base_url, timeout := timeout,
          headers := authHeaders ++ [("Content-Type", "application/json")] }

/-- Whether construction raised (the spec's `ConfigurationError`). -/
def isConfigError (r : Except String ClientConfig) : Bool :=
  match r with
  | .error _ => true
  | .ok _ => false

/-- Look up a header value by name in a header list. -/
def lookupHeader (c : ClientConfig) (name : String) : Option String :=
  (c.headers.find? (fun p => p.1 == name)).map Prod.snd

/-! ## Resource façade operations

One constructor per façade operation, carrying exactly the arguments of the
corresponding Python method.  The `**kwargs` methods (`create`/`update`)
carry the caller's keyword mapping verbatim as an ordered association list. -/

/-- A façade operation together with its arguments. -/
inductive Operation where
  | patients_create (kwargs : List (String × JsonVal))
  | patients_list (limit offset : Nat) (status search : Option String)
  | patients_get (patient_id : String)
  | patients_update (patient_id : String) (kwargs : List (String × JsonVal))
  | patients_delete (patient_id : String) (hard : Bool)
  | medications_create (kwargs : List (String × JsonVal))
  | medications_list (patient_id status : Option String) (limit offset : Nat)
  | medications_get (medication_id : String)
  | medications_update (medication_id : String) (kwargs : List (String × JsonVal))
  | medications_delete (medication_id : String)
  | adherence_get (patient_id : String) (start_date end_date medication_id : Option String)
  | adherence_history (patient_id : String) (limit offset : Nat)
      (status medication_id : Option String)
  | adherence_confirm (patient_id medication_id scheduled_time : String)
      (taken_at notes : Option String)
  | reports_adherence (start_date end_date patient_id : Option String)
  | reports_compliance
  | reports_export (report_type format : String)
  | webhooks_create (url : String) (events : List String) (secret : Option String)
  | webhooks_list
  | webhooks_get (webhook_id : String)
  | webhooks_delete (webhook_id : String)
  | webhooks_test (webhook_id : String)

/-- The `(method, path, params, json)` quadruple a façade method passes to
`MedicamentaClient._request`. -/
structure Request where
  method : String
  path : String
  params : List (String × JsonVal)
  body : Option (List (String × JsonVal))

/-- The dict comprehension `{k: v for k, v in d.items() if v is not None}`:
keep, in order, exactly the entries whose value is set. -/
def dropNone (l : List (String × Option JsonVal)) : List (String × JsonVal) :=
  l.filterMap (fun p => p.2.map (fun v => (p.1, v)))

/-- The request each façade operation constructs, translated method by method
from the source (paths by f-string substitution; `params`/`json` dicts built
and, where the source does so, filtered of `None` values).  Note from the
source: the `create`/`update` methods forward `**kwargs` verbatim, and
`WebhooksResource.create` builds its body dict without the `None`-filtering
comprehension, so an absent `secret` stays as an explicit `null`. -/
def opRequest : Operation → Request
  | .patients_create kwargs =>
      ⟨"POST", "/v1/patients", [], some kwargs⟩
  | .patients_list limit offset status search =>
      ⟨"GET", "/v1/patients",
       dropNone [("limit", some (.nat limit)), ("offset", some (.nat offset)),
                 ("status", status.map .str), ("search", search.map .str)], none⟩
  | .patients_get patient_id =>
      ⟨"GET", "/v1/patients/" ++ patient_id, [], none⟩
  | .patients_update patient_id kwargs =>
      ⟨"PATCH", "/v1/patients/" ++ patient_id, [], some kwargs⟩
  | .patients_delete patient_id hard =>
      ⟨"DELETE", "/v1/patients/" ++ patient_id,
       [("hard", .str (if hard then "true" else "false"))], none⟩
  | .medications_create kwargs =>
      ⟨"POST", "/v1/medications", [], some kwargs⟩
  | .medications_list patient_id status limit offset =>
      ⟨"GET", "/v1/medications",
       dropNone [("patientId", patient_id.map .str), ("status", status.map .str),
                 ("limit", some (.nat limit)), ("offset", some (.nat offset))], none⟩
  | .medications_get medication_id =>
      ⟨"GET", "/v1/medications/" ++ medication_id, [], none⟩
  | .medications_update medication_id kwargs =>
      ⟨"PATCH", "/v1/medications/" ++ medication_id, [], some kwargs⟩
  | .medications_delete medication_id =>
      ⟨"DELETE", "/v1/medications/" ++ medication_id, [], none⟩
  | .adherence_get patient_id start_date end_date medication_id =>
      ⟨"GET", "/v1/adherence/" ++ patient_id,
       dropNone [("startDate", start_date.map .str), ("endDate", end_date.map .str),
                 ("medicationId", medication_id.map .str)], none⟩
  | .adherence_history patient_id limit offset status medication_id =>
      ⟨"GET", "/v1/adherence/" ++ patient_id ++ "/history",
       dropNone [("limit", some (.nat limit)), ("offset", some (.nat offset)),
                 ("status", status.map .str), ("medicationId", medication_id.map .str)], none⟩
  | .adherence_confirm patient_id medication_id scheduled_time taken_at notes =>
      ⟨"POST", "/v1/adherence/confirm", [],
       some (dropNone
         [("patientId", some (.str patient_id)), ("medicationId", some (.str medication_id)),
          ("scheduledTime", some (.str scheduled_time)), ("takenAt", taken_at.map .str),
          ("notes", notes.map .str)])⟩
  | .reports_adherence start_date end_date patient_id =>
      ⟨"GET", "/v1/reports/adherence",
       dropNone [("startDate", start_date.map .str), ("endDate", end_date.map .str),
                 ("patientId", patient_id.map .str)], none⟩
  | .reports_compliance =>
      ⟨"GET", "/v1/reports/compliance", [], none⟩
  | .reports_export report_type format =>
      ⟨"POST", "/v1/reports/export", [],
       some [("reportType", .str report_type), ("format", .str format)]⟩
  | .webhooks_create url events secret =>
      ⟨"POST", "/v1/webhooks", [],
       some [("url", .str url), ("events", .arr (events.map .str)),
             ("secret", match secret with | some s => .str s | none => .null)]⟩
  | .webhooks_list =>
      ⟨"GET", "/v1/webhooks", [], none⟩
  | .webhooks_get webhook_id =>
      ⟨"GET", "/v1/webhooks/" ++ webhook_id, [], none⟩
  | .webhooks_delete webhook_id =>
      ⟨"DELETE", "/v1/webhooks/" ++ webhook_id, [], none⟩
  | .webhooks_test webhook_id =>
      ⟨"POST", "/v1/webhooks/" ++ webhook_id ++ "/test", [], none⟩

/-- The fully assembled outgoing request: the façade quadruple plus the URL
(`base_url + path`) and the session headers, exactly as `_request` sends it. -/
structure SentRequest where
  method : String
  url : String
  headers : List (String × String)
  params : List (String × JsonVal)
  body : Option (List (String × JsonVal))

/-- Assemble what `_request` transmits for an operation on a constructed
client: URL from the stored base URL, headers from the session (fixed at
construction; no operation writes to them). -/
def sendOp (c : ClientConfig) (op : Operation) : SentRequest :=
  let r := opRequest op
  ⟨r.method, c.base_url ++ r.path, c.headers, r.params, r.body⟩

/-! ## The transport: `MedicamentaClient._request`

Embeds source lines 70-95 with `requests` (>= 2.31, per `setup.py`) semantics:

* `raise_for_status()` raises `HTTPError` exactly when `400 <= status < 600`,
  with message `'<code> Client|Server Error: <reason> for url: <url>'`;
* `response.json()` returns the decoded body, or raises
  `requests.exceptions.JSONDecodeError` — a `RequestException` subclass —
  when the body is empty or not valid JSON;
* in the `except HTTPError` handler, `e.response.json()` is only guarded by
  `if e.response.content` (empty bodies give `{}`); a non-empty unparseable
  body raises `JSONDecodeError` *inside the handler*, where the sibling
  `except RequestException` clause no longer applies, so it escapes;
* `dict.get` on a non-dict decoded body raises `AttributeError`, which also
  escapes.

The body of an HTTP response is classified by its JSON-parsability, which is
what the code observes through `.content` truthiness and `.json()`. -/

/-- An HTTP response body as `_request` observes it: empty content, non-empty
content that is not valid JSON, or content decoding to a JSON value. -/
inductive BodyContent where
  | empty : BodyContent
  | invalid : String → BodyContent
  | json : JsonVal → BodyContent

/-- An HTTP response: status code, reason phrase, body. -/
structure HttpResponse where
  status : Nat
  reason : String
  body : BodyContent

/-- What the network produced for one call: a response, or a transport-level
`requests.RequestException` (DNS, timeout, connection reset) with its `str`. -/
inductive HttpResult where
  | response : HttpResponse → HttpResult
  | transportFailure : String → HttpResult

/-- Which `RequestException` the generic `except` branch wrapped: a transport
failure, or the `JSONDecodeError` from `response.json()` on a success-status
response whose body is empty or invalid. -/
inductive ReqExnCause where
  | transport : String → ReqExnCause
  | successBodyDecode : ReqExnCause

/-- The observable outcome of `MedicamentaClient._request`: a returned JSON
value, a raised `MedicamentaError` (from the `HTTPError` handler, carrying the
extracted message, or from the `RequestException` handler, carrying the
cause), or an exception that escapes the handlers entirely. -/
inductive CallOutcome where
  | ret : JsonVal → CallOutcome
  | medErrorApi : String → CallOutcome
  | medErrorRequest : ReqExnCause → CallOutcome
  | uncaughtJsonDecode : CallOutcome
  | uncaughtAttribute : CallOutcome

/-- Python `d.get(key, default)` semantics on a decoded JSON value: `none`
models the `AttributeError` of calling `.get` on a non-dict; otherwise the
result is the first value stored under `key`, or `none` for a missing key. -/
def jsonGet (v : JsonVal) (key : String) : Option (Option JsonVal) :=
  match v with
  | .obj kvs => some ((kvs.find? (fun p => p.1 == key)).map Prod.snd)
  | _ => none

/-- The message of the `HTTPError` that `raise_for_status()` raises:
`'<code> Client Error: <reason> for url: <url>'` for 4xx and
`'<code> Server Error: ...'` for 5xx. -/
def httpErrorString (r : HttpResponse) (url : String) : String :=
  if r.status < 500 then
    toString r.status ++ " Client Error: " ++ r.reason ++ " for url: " ++ url
  else
    toString r.status ++ " Server Error: " ++ r.reason ++ " for url: " ++ url

/-- The `except HTTPError` handler's message extraction,
`error_data.get('error', {}).get('message', str(e))`, applied to the decoded
error body: `AttributeError` escapes when a `.get` receiver is not a dict;
otherwise the extracted message (rendered by the f-string) feeds
`MedicamentaError('API Error: ' + msg)`. -/
def extractApiOutcome (errorData : JsonVal) (fallback : String) : CallOutcome :=
  match jsonGet errorData "error" with
  | none => .uncaughtAttribute
  | some r =>
    match jsonGet (r.getD (.obj [])) "message" with
    | none => .uncaughtAttribute
    | some (some v) => .medErrorApi (pyStr v)
    | some none => .medErrorApi fallback

/-- Embedding of `MedicamentaClient._request` outcome normalisation: given the
URL path of the request and what the network did, produce the call outcome. -/
def requestCall (c : ClientConfig) (path : String) (net : HttpResult) : CallOutcome :=
  let url := c.base_url ++ path
  match net with
  | .transportFailure msg => .medErrorRequest (.transport msg)
  | .response r =>
    if 400 ≤ r.status ∧ r.status < 600 then
      match r.body with
      | .empty => extractApiOutcome (.obj []) (httpErrorString r url)
      | .invalid _ => .uncaughtJsonDecode
      | .json v => extractApiOutcome v (httpErrorString r url)
    else
      match r.body with
      | .json v => .ret v
      | .empty => .medErrorRequest .successBodyDecode
      | .invalid _ => .medErrorRequest .successBodyDecode

/-- The message of the `MedicamentaError` raised from the `HTTPError` branch,
when that branch raised one: the extracted message behind the literal prefix
`'API Error: '`. -/
def apiErrorMessage : CallOutcome → Option String
  | .medErrorApi m => some ("API Error: " ++ m)
  | _ => none

/-- A sample successfully constructed client used by concrete counterexamples:
`MedicamentaClient(api_key='k', base_url='https://api.example.com', timeout=30)`. -/
def testConfig : ClientConfig :=
  { api_key := some "k", access_token := none,
    base_url := "https://api.example.com", timeout := 30,
    headers := [("X-API-Key", "k"), ("Content-Type", "application/json")] }

/-! ## The endpoint table of spec section 6

These two definitions follow the spec's words, not the source: they transcribe
the method and path-template columns of the table, for the round-trip
comparison of claim C2 against the requests the source builds. -/

/-- The HTTP method column of the spec's section-6 table. -/
def specTableMethod : Operation → String
  | .patients_create _ => "POST"
  | .patients_list _ _ _ _ => "GET"
  | .patients_get _ => "GET"
  | .patients_update _ _ => "PATCH"
  | .patients_delete _ _ => "DELETE"
  | .medications_create _ => "POST"
  | .medications_list _ _ _ _ => "GET"
  | .medications_get _ => "GET"
  | .medications_update _ _ => "PATCH"
  | .medications_delete _ => "DELETE"
  | .adherence_get _ _ _ _ => "GET"
  | .adherence_history _ _ _ _ _ => "GET"
  | .adherence_confirm _ _ _ _ _ => "POST"
  | .reports_adherence _ _ _ => "GET"
  | .reports_compliance => "GET"
  | .reports_export _ _ => "POST"
  | .webhooks_create _ _ _ => "POST"
  | .webhooks_list => "GET"
  | .webhooks_get _ => "GET"
  | .webhooks_delete _ => "DELETE"
  | .webhooks_test _ => "POST"

/-- The path-template column of the spec's section-6 table, with the path
parameter substituted. -/
def specTablePath : Operation → String
  | .patients_create _ => "/v1/patients"
  | .patients_list _ _ _ _ => "/v1/patients"
  | .patients_get id => "/v1/patients/" ++ id
  | .patients_update id _ => "/v1/patients/" ++ id
  | .patients_delete id _ => "/v1/patients/" ++ id
  | .medications_create _ => "/v1/medications"
  | .medications_list _ _ _ _ => "/v1/medications"
  | .medications_get id => "/v1/medications/" ++ id
  | .medications_update id _ => "/v1/medications/" ++ id
  | .medications_delete id => "/v1/medications/" ++ id
  | .adherence_get id _ _ _ => "/v1/adherence/" ++ id
  | .adherence_history id _ _ _ _ => "/v1/adherence/" ++ id ++ "/history"
  | .adherence_confirm _ _ _ _ _ => "/v1/adherence/confirm"
  | .reports_adherence _ _ _ => "/v1/reports/adherence"
  | .reports_compliance => "/v1/reports/compliance"
  | .reports_export _ _ => "/v1/reports/export"
  | .webhooks_create _ _ _ => "/v1/webhooks"
  | .webhooks_list => "/v1/webhooks"
  | .webhooks_get id => "/v1/webhooks/" ++ id
  | .webhooks_delete id => "/v1/webhooks/" ++ id
  | .webhooks_test id => "/v1/webhooks/" ++ id ++ "/test"

/-- The key contributed to a filtered params/body dict by one optional
argument: present exactly when the argument is set. -/
def optKey (k : String) : Option String → List String
  | some _ => [k]
  | none => []

/-- Whether a call outcome is a normal return (as opposed to a raise). -/
def isReturn : CallOutcome → Bool
  | .ret _ => true
  | _ => false

/-! ## Theorems -/

/-- Auxiliary: the first two characters of any string of the literal form
`"t=" ++ t ++ ",v1=" ++ d` are `t` and `=`. -/
theorem form_take_two (t d : String) : ("t=" ++ t ++ ",v1=" ++ d).data.take 2 = ['t', '='] := by
  cases t
  cases d
  rfl

/-- C4 counterexample: constructing with `api_key` supplied as the empty
string and no `access_token` raises the configuration error, even though an
`api_key` argument was supplied (is not `None`) — so "fails iff neither
credential is supplied" is false. -/
theorem config_error_on_empty_api_key :
    isConfigError (clientInit (some "") none "https://api.example.com" 30) = true ∧
    (some "" : Option String) ≠ none := by
  exact ⟨rfl, by decide⟩

/-- C4 amended: construction fails with the configuration error iff both
`api_key` and `access_token` are Python-falsy (absent or empty); otherwise it
succeeds, attaching `X-API-Key` when `api_key` is truthy (and no
`Authorization` header), else `Authorization: Bearer <token>` (and no
`X-API-Key` header). -/
theorem clientInit_spec (ak tk : Option String) (b : String) (n : Nat) :
    (isConfigError (clientInit ak tk b n) = true ↔
      pyTruthy ak = false ∧ pyTruthy tk = false) ∧
    (pyTruthy ak = true →
      ∃ c, clientInit ak tk b n = .ok c ∧
        lookupHeader c "X-API-Key" = some (ak.getD "") ∧
        lookupHeader c "Authorization" = none) ∧
    (pyTruthy ak = false → pyTruthy tk = true →
      ∃ c, clientInit ak tk b n = .ok c ∧
        lookupHeader c "Authorization" = some ("Bearer " ++ tk.getD "") ∧
        lookupHeader c "X-API-Key" = none) := by
  cases hak : pyTruthy ak <;> cases htk : pyTruthy tk <;>
    simp [clientInit, hak, htk, isConfigError, lookupHeader, List.find?] <;>
    rintro a b (⟨rfl, -⟩ | ⟨rfl, -⟩) <;> decide

/-- Witness for C4's amended theorem at `api_key='k'`. -/
theorem clientInit_spec_witness :
    ∃ c, clientInit (some "k") none "https://api.example.com" 30 = .ok c ∧
      lookupHeader c "X-API-Key" = some "k" ∧
      lookupHeader c "Authorization" = none :=
  (clientInit_spec (some "k") none "https://api.example.com" 30).2.1 (by decide)

/-- C10: credential presence is decided by string truthiness, not
non-`None`-ness — `api_key=''` alone raises even though it was supplied, and
`api_key=''` together with a non-empty `access_token` succeeds selecting the
`Authorization: Bearer` header, with no `X-API-Key` header. -/
theorem credential_truthiness (b : String) (n : Nat) (tok : String) (htok : tok ≠ "") :
    isConfigError (clientInit (some "") none b n) = true ∧
    ∃ c, clientInit (some "") (some tok) b n = .ok c ∧
      lookupHeader c "Authorization" = some ("Bearer " ++ tok) ∧
      lookupHeader c "X-API-Key" = none := by
  have htok' : pyTruthy (some tok) = true := by
    cases hempty : tok.isEmpty
    · simp [pyTruthy, hempty]
    · exact absurd ((String.isEmpty_iff tok).mp hempty) htok
  refine ⟨rfl, ?_⟩
  exact (clientInit_spec (some "") (some tok) b n).2.2 (by decide) htok'

/-- Witness for C10 at `access_token='tok'`. -/
theorem credential_truthiness_witness :
    isConfigError (clientInit (some "") none "https://api.example.com" 30) = true ∧
    ∃ c, clientInit (some "") (some "tok") "https://api.example.com" 30 = .ok c ∧
      lookupHeader c "Authorization" = some ("Bearer " ++ "tok") ∧
      lookupHeader c "X-API-Key" = none :=
  credential_truthiness "https://api.example.com" 30 "tok" (by decide)

/-- C8 counterexample: constructing with *both* credentials succeeds and the
resulting configuration stores both — so "exactly one credential kind is set
in every successfully constructed configuration" is false (the code only
rejects the absence of both; with both present it stores both and lets
`X-API-Key` win the header selection). -/
theorem both_credentials_accepted :
    clientInit (some "k") (some "t") "https://api.example.com" 30 =
      .ok { api_key := some "k", access_token := some "t",
            base_url := "https://api.example.com", timeout := 30,
            headers := [("X-API-Key", "k"), ("Content-Type", "application/json")] } := by
  rfl

/-- C8 amended: every successfully constructed configuration carries exactly
one of the two authentication headers (`X-API-Key` wins when both credentials
are truthy), and the headers transmitted with any façade operation are exactly
the construction-time session headers — no operation alters them. -/
theorem auth_header_exclusive (ak tk : Option String) (b : String) (n : Nat) (c : ClientConfig)
    (h : clientInit ak tk b n = .ok c) :
    (((lookupHeader c "X-API-Key").isSome && !(lookupHeader c "Authorization").isSome) ||
     (!(lookupHeader c "X-API-Key").isSome && (lookupHeader c "Authorization").isSome)) = true ∧
    ∀ op : Operation, (sendOp c op).headers = c.headers := by
  refine ⟨?_, fun _ => rfl⟩
  rcases (clientInit_spec ak tk b n) with ⟨herr, hkey, hbear⟩
  cases hak : pyTruthy ak with
  | true =>
    rcases hkey hak with ⟨c', hc', hx, ha⟩
    rw [h] at hc'
    cases hc'
    simp [hx, ha]
  | false =>
    cases htk : pyTruthy tk with
    | true =>
      rcases hbear hak htk with ⟨c', hc', ha, hx⟩
      rw [h] at hc'
      cases hc'
      simp [hx, ha]
    | false =>
      have : isConfigError (clientInit ak tk b n) = true := herr.mpr ⟨hak, htk⟩
      rw [h] at this
      simp [isConfigError] at this

/-- Witness for C8's amended theorem on a concrete construction. -/
theorem auth_header_exclusive_witness :
    (((lookupHeader testConfig "X-API-Key").isSome &&
      !(lookupHeader testConfig "Authorization").isSome) ||
     (!(lookupHeader testConfig "X-API-Key").isSome &&
      (lookupHeader testConfig "Authorization").isSome)) = true :=
  (auth_header_exclusive (some "k") none "https://api.example.com" 30 testConfig (by rfl)).1

/-- C2 counterexample: a patient created with internal field `date_of_birth`
transmits the body key `date_of_birth` verbatim — not the external
`dateOfBirth` the table demands — and a medication created with internal
`patient_id` transmits `patient_id`, not `patientId`: the `**kwargs` create
methods forward keys unrenamed. -/
theorem create_forwards_snake_case :
    ((opRequest (.patients_create
        [("name", .str "Joao Silva"), ("date_of_birth", .str "1980-05-15")])).body.getD []).map
        Prod.fst = ["name", "date_of_birth"] ∧
    "dateOfBirth" ∉ ((opRequest (.patients_create
        [("name", .str "Joao Silva"), ("date_of_birth", .str "1980-05-15")])).body.getD []).map
        Prod.fst ∧
    ((opRequest (.medications_create [("patient_id", .str "p1"), ("name", .str "Aspirin")])).body.getD
        []).map Prod.fst = ["patient_id", "name"] ∧
    "patientId" ∉ ((opRequest (.medications_create
        [("patient_id", .str "p1"), ("name", .str "Aspirin")])).body.getD []).map Prod.fst := by
  refine ⟨rfl, by decide, rfl, by decide⟩

/-- C2 amended: every façade operation's method and path match the section-6
table exactly (path parameters substituted); the operations that build their
mapping explicitly use the external camel-case names (`patientId`,
`startDate`, `endDate`, `medicationId`, `scheduledTime`, `takenAt`,
`reportType`); but the `**kwargs` create/update methods forward the caller's
keys verbatim, so internal snake-case field names are transmitted unchanged
rather than renamed to their camel-case external forms. -/
theorem facade_request_shape :
    (∀ op : Operation,
      (opRequest op).method = specTableMethod op ∧ (opRequest op).path = specTablePath op) ∧
    (∀ kwargs, (opRequest (.patients_create kwargs)).body = some kwargs) ∧
    (∀ id kwargs, (opRequest (.patients_update id kwargs)).body = some kwargs) ∧
    (∀ kwargs, (opRequest (.medications_create kwargs)).body = some kwargs) ∧
    (∀ id kwargs, (opRequest (.medications_update id kwargs)).body = some kwargs) ∧
    (∀ pid st l o, (opRequest (.medications_list pid st l o)).params.map Prod.fst =
      optKey "patientId" pid ++ optKey "status" st ++ ["limit", "offset"]) ∧
    (∀ id sd ed mid, (opRequest (.adherence_get id sd ed mid)).params.map Prod.fst =
      optKey "startDate" sd ++ optKey "endDate" ed ++ optKey "medicationId" mid) := by
  refine ⟨?_, fun _ => rfl, fun _ _ => rfl, fun _ => rfl, fun _ _ => rfl, ?_, ?_⟩
  · intro op
    cases op <;> exact ⟨rfl, rfl⟩
  · intro pid st l o
    cases pid <;> cases st <;> rfl
  · intro id sd ed mid
    cases sd <;> cases ed <;> cases mid <;> rfl

/-- C3 counterexample: `Webhooks.create` called without a secret still
transmits the `secret` key, serialized as `null` — its body dict is built
without the `None`-filtering comprehension the other operations use, so the
key set is not the set of non-`None` inputs. -/
theorem webhook_secret_not_omitted :
    (opRequest (.webhooks_create "https://example.com/hook" ["dose.taken"] none)).body =
      some [("url", .str "https://example.com/hook"),
            ("events", .arr [.str "dose.taken"]), ("secret", .null)] ∧
    "secret" ∈ ((opRequest
      (.webhooks_create "https://example.com/hook" ["dose.taken"] none)).body.getD []).map
      Prod.fst := by
  exact ⟨rfl, by decide⟩

/-- C3 amended: for every operation that builds its query/body mapping through
the `None`-filtering comprehension (`Patients.list`, `Medications.list`,
`Adherence.get/history/confirm`, `Reports.adherence`), the transmitted key
list is exactly the keys whose input is set; but `Webhooks.create` performs no
filtering — an absent `secret` is transmitted as an explicit `null` value
under the `secret` key. -/
theorem none_values_omitted :
    (∀ l o st se, (opRequest (.patients_list l o st se)).params.map Prod.fst =
      ["limit", "offset"] ++ optKey "status" st ++ optKey "search" se) ∧
    (∀ pid st l o, (opRequest (.medications_list pid st l o)).params.map Prod.fst =
      optKey "patientId" pid ++ optKey "status" st ++ ["limit", "offset"]) ∧
    (∀ id sd ed mid, (opRequest (.adherence_get id sd ed mid)).params.map Prod.fst =
      optKey "startDate" sd ++ optKey "endDate" ed ++ optKey "medicationId" mid) ∧
    (∀ id l o st mid, (opRequest (.adherence_history id l o st mid)).params.map Prod.fst =
      ["limit", "offset"] ++ optKey "status" st ++ optKey "medicationId" mid) ∧
    (∀ p m s ta no, ((opRequest (.adherence_confirm p m s ta no)).body.getD []).map Prod.fst =
      ["patientId", "medicationId", "scheduledTime"] ++ optKey "takenAt" ta ++ optKey "notes" no) ∧
    (∀ sd ed pid, (opRequest (.reports_adherence sd ed pid)).params.map Prod.fst =
      optKey "startDate" sd ++ optKey "endDate" ed ++ optKey "patientId" pid) ∧
    (∀ url events, (opRequest (.webhooks_create url events none)).body =
      some [("url", .str url), ("events", .arr (events.map .str)), ("secret", .null)]) := by
  refine ⟨?_, ?_, ?_, ?_, ?_, ?_, fun _ _ => rfl⟩
  · intro l o st se
    cases st <;> cases se <;> rfl
  · intro pid st l o
    cases pid <;> cases st <;> rfl
  · intro id sd ed mid
    cases sd <;> cases ed <;> cases mid <;> rfl
  · intro id l o st mid
    cases st <;> cases mid <;> rfl
  · intro p m s ta no
    cases ta <;> cases no <;> rfl
  · intro sd ed pid
    cases sd <;> cases ed <;> cases pid <;> rfl

/-- C5 counterexample: a 404 whose body is
`{"error":{"message":"Patient not found"}}` raises the error with message
`'API Error: Patient not found'` — the extracted text behind a literal
`'API Error: '` prefix — which is not exactly the string
`"Patient not found"`. -/
theorem error_message_has_prefix :
    apiErrorMessage (requestCall testConfig "/v1/patients/p1"
      (.response ⟨404, "NOT FOUND",
        .json (.obj [("error", .obj [("message", .str "Patient not found")])])⟩)) =
      some "API Error: Patient not found" ∧
    "API Error: Patient not found" ≠ "Patient not found" := by
  exact ⟨rfl, by decide⟩

/-- C5 amended: an HTTP error response whose body decodes to
`{"error": {"message": <m>}}` raises `MedicamentaError` carrying the extracted
`error.message` string behind the literal prefix `'API Error: '`, so the full
raised message is `'API Error: ' ++ m`, not `m` alone. -/
theorem api_error_message_extraction (c : ClientConfig) (path reason m : String) (status : Nat)
    (h : 400 ≤ status ∧ status < 600) :
    requestCall c path (.response ⟨status, reason,
        .json (.obj [("error", .obj [("message", .str m)])])⟩) = .medErrorApi m ∧
    apiErrorMessage (requestCall c path (.response ⟨status, reason,
        .json (.obj [("error", .obj [("message", .str m)])])⟩)) =
      some ("API Error: " ++ m) := by
  have h1 : requestCall c path (.response ⟨status, reason,
      .json (.obj [("error", .obj [("message", .str m)])])⟩) = .medErrorApi m := by
    simp only [requestCall]
    rw [if_pos h]
    rfl
  exact ⟨h1, by rw [h1]; rfl⟩

/-- Witness for C5's amended theorem at status 404. -/
theorem api_error_message_extraction_witness :
    requestCall testConfig "/v1/patients/p1" (.response ⟨404, "NOT FOUND",
        .json (.obj [("error", .obj [("message", .str "Patient not found")])])⟩) =
      .medErrorApi "Patient not found" :=
  (api_error_message_extraction testConfig "/v1/patients/p1" "NOT FOUND"
    "Patient not found" 404 (by decide)).1

/-- C6: the failing half and the working half of the error-body handling.  An
HTTP error with an *empty* body does fall back to the `HTTPError` string (a
non-empty, status-derived message).  But an HTTP error with a non-empty body
that is not valid JSON calls `e.response.json()` inside the `except HTTPError`
handler, whose `JSONDecodeError` is not caught by the sibling
`except RequestException` clause — it escapes to the caller instead of being
wrapped in a `MedicamentaError`, contradicting the claim (and the clear intent
of the `if e.response.content` guard next to it). -/
theorem http_error_unparseable_body_escapes (c : ClientConfig) (path reason raw : String) :
    requestCall c path (.response ⟨500, reason, .invalid raw⟩) = .uncaughtJsonDecode ∧
    requestCall c path (.response ⟨500, reason, .empty⟩) =
      .medErrorApi (httpErrorString ⟨500, reason, .empty⟩ (c.base_url ++ path)) ∧
    httpErrorString ⟨500, reason, .empty⟩ (c.base_url ++ path) ≠ "" := by
  refine ⟨by simp [requestCall], by simp [requestCall]; rfl, ?_⟩
  intro hcontra
  have := congrArg String.length hcontra
  simp [httpErrorString, String.length_append] at this
  exact absurd this.1.1.1.2 (by decide)

/-- C7 counterexample: a 2xx response with an empty body does not decode to an
empty result — `response.json()` raises `requests.JSONDecodeError`, a
`RequestException`, which the generic handler wraps into
`MedicamentaError('Request failed: ...')`: the call fails instead of
returning. -/
theorem success_empty_body_raises :
    requestCall testConfig "/v1/webhooks" (.response ⟨200, "OK", .empty⟩) =
      .medErrorRequest .successBodyDecode ∧
    isReturn (requestCall testConfig "/v1/webhooks" (.response ⟨200, "OK", .empty⟩)) = false := by
  exact ⟨rfl, rfl⟩

/-- C7 amended: on a non-error status (anything outside 400-599, in
particular 2xx) the call returns the decoded JSON body as its sole result
when the body is valid JSON; when the body is empty or not valid JSON the
call raises `MedicamentaError` wrapping the `JSONDecodeError` from
`response.json()` — it does not return an empty result. -/
theorem success_status_outcomes (c : ClientConfig) (path reason : String) (status : Nat)
    (h : ¬(400 ≤ status ∧ status < 600)) (v : JsonVal) (raw : String) :
    requestCall c path (.response ⟨status, reason, .json v⟩) = .ret v ∧
    requestCall c path (.response ⟨status, reason, .empty⟩) =
      .medErrorRequest .successBodyDecode ∧
    requestCall c path (.response ⟨status, reason, .invalid raw⟩) =
      .medErrorRequest .successBodyDecode := by
  refine ⟨?_, ?_, ?_⟩ <;> (simp only [requestCall]; rw [if_neg h])

/-- Witness for C7's amended theorem at status 200. -/
theorem success_status_outcomes_witness :
    requestCall testConfig "/v1/patients" (.response ⟨200, "OK",
      .json (.obj [("data", .arr [])])⟩) = .ret (.obj [("data", .arr [])]) :=
  (success_status_outcomes testConfig "/v1/patients" "OK" 200 (by decide)
    (.obj [("data", .arr [])]) "x").1

/-- Auxiliary: `splitValue` succeeds with `v` exactly when the `'='`-split of
the part has `v` in position 1. -/
theorem splitValue_some_iff (p v : String) :
    splitValue p = some v ↔ ∃ k r, pySplit '=' p = k :: v :: r := by
  unfold splitValue
  constructor
  · intro h
    split at h
    next k v' r heq =>
      cases h
      exact ⟨k, r, heq⟩
    next => cases h
  · rintro ⟨k, r, heq⟩
    rw [heq]

/-- Auxiliary: the parsing phase succeeds with `(t, d)` exactly when the
signature splits on `','` into at least two parts and the first two parts
carry `t` and `d` in position 1 of their `'='`-splits. -/
theorem parseSignature_some_iff (sig t d : String) :
    parseSignature sig = some (t, d) ↔
      ∃ p0 p1 rest k0 r0 k1 r1,
        pySplit ',' sig = p0 :: p1 :: rest ∧
        pySplit '=' p0 = k0 :: t :: r0 ∧
        pySplit '=' p1 = k1 :: d :: r1 := by
  constructor
  · intro hp
    unfold parseSignature at hp
    split at hp
    next p0 p1 rest hs =>
      split at hp
      next t' d' h0 h1 =>
        cases hp
        obtain ⟨k0, r0, h0'⟩ := (splitValue_some_iff p0 _).1 h0
        obtain ⟨k1, r1, h1'⟩ := (splitValue_some_iff p1 _).1 h1
        exact ⟨p0, p1, rest, k0, r0, k1, r1, hs, h0', h1'⟩
      next => cases hp
    next => cases hp
  · rintro ⟨p0, p1, rest, k0, r0, k1, r1, hs, h0, h1⟩
    have hv0 : splitValue p0 = some t := (splitValue_some_iff p0 t).2 ⟨k0, r0, h0⟩
    have hv1 : splitValue p1 = some d := (splitValue_some_iff p1 d).2 ⟨k1, r1, h1⟩
    unfold parseSignature
    rw [hs]
    simp [hv0, hv1]

/-- C1 counterexample: the verifier never checks the literal `t`/`v1` key
labels.  The signature `'a=1,v1=' ++ HMAC` (with the digest correct for
timestamp `'1'`) is accepted, yet its first two characters are `'a', '='` —
while every string of the claimed form `t=<T>,v1=<D>` starts with `'t', '='`
(`form_take_two`) — so "returns true iff the signature decodes to the form
`t=<T>,v1=<D>` with a correct digest" is false. -/
theorem signature_label_not_checked :
    verify_webhook_signature "payload"
      ("a=1,v1=" ++ hmacSha256Hex "secret" "1.payload") "secret" = true ∧
    ("a=1,v1=" ++ hmacSha256Hex "secret" "1.payload").data.take 2 = ['a', '='] := by
  exact ⟨by decide, by decide⟩

/-- C1 amended: the verifier returns `true` iff the signature splits on `','`
into at least two parts, the first two parts each contain `'='`, and the
field after the first `'='` of the *second* part equals the lowercase hex
HMAC-SHA256 of `T ++ "." ++ payload` under the secret, where `T` is the field
after the first `'='` of the *first* part — the `t`/`v1` labels themselves are
not checked and extra parts are ignored.  In particular it returns `false`
for the empty string and for a single-part string. -/
theorem verify_signature_decode_iff (payload signature secret : String) :
    (verify_webhook_signature payload signature secret = true ↔
      ∃ t d p0 p1 rest k0 r0 k1 r1,
        pySplit ',' signature = p0 :: p1 :: rest ∧
        pySplit '=' p0 = k0 :: t :: r0 ∧
        pySplit '=' p1 = k1 :: d :: r1 ∧
        d = hmacSha256Hex secret (t ++ "." ++ payload)) ∧
    verify_webhook_signature payload "" secret = false ∧
    verify_webhook_signature payload "t=1700000000" secret = false := by
  refine ⟨?_, rfl, rfl⟩
  constructor
  · intro hv
    unfold verify_webhook_signature at hv
    cases hp : parseSignature signature with
    | none => rw [hp] at hv; cases hv
    | some td =>
      obtain ⟨t, d⟩ := td
      rw [hp] at hv
      have hd : d = hmacSha256Hex secret (t ++ "." ++ payload) := by
        simpa [compare_digest] using hv
      obtain ⟨p0, p1, rest, k0, r0, k1, r1, hs, h0, h1⟩ :=
        (parseSignature_some_iff signature t d).1 hp
      exact ⟨t, d, p0, p1, rest, k0, r0, k1, r1, hs, h0, h1, hd⟩
  · rintro ⟨t, d, p0, p1, rest, k0, r0, k1, r1, hs, h0, h1, hd⟩
    have hp : parseSignature signature = some (t, d) :=
      (parseSignature_some_iff signature t d).2 ⟨p0, p1, rest, k0, r0, k1, r1, hs, h0, h1⟩
    unfold verify_webhook_signature
    rw [hp]
    simp [compare_digest, hd]

/-- C9: on any malformed signature — one whose parsing phase fails, i.e.
fewer than two comma-separated parts, or a first or second part without an
`'='` (the source's caught `IndexError`) — the verifier returns `false`, for
every payload and secret.  In the embedding the function is total, matching
the source's `except (IndexError, ValueError)` guard on this input class. -/
theorem verify_malformed_false (payload signature secret : String)
    (h : parseSignature signature = none) :
    verify_webhook_signature payload signature secret = false := by
  unfold verify_webhook_signature
  rw [h]

/-- Witness for C9 on the single-part signature `'t=1700000000'`. -/
theorem verify_malformed_false_witness :
    parseSignature "t=1700000000" = none ∧
    verify_webhook_signature "p" "t=1700000000" "whsec_test" = false := by
  exact ⟨by decide, verify_malformed_false "p" "t=1700000000" "whsec_test" (by decide)⟩
